import Mathlib

/-!
Verification development for the Kalico extruder pressure-advance kinematics
(`kin_extruder.c`).  The C code is shallowly embedded: double-precision
quantities in the stateful/branching code are modelled as rationals (`ℚ`),
so every operation is executable and decidable; the three pure
pressure-advance model functions, which involve the transcendental `tanh`,
are modelled over the reals (`ℝ`).

Functions of the repository that `kin_extruder.c` calls but whose sources
are not available here (`move_get_distance` from trapq.c,
`extruder_integrate`/`extruder_integrate_time` from integrate.c,
`init_shaper` from kin_shaper.c, `init_smoother` from integrate.c) are
modelled from the specification; each such definition says so in its doc
comment.

The printed `kin_extruder.c` mixes two revisions of the file: the declared
`struct extruder_stepper` omits fields (`pa_params`, `sp`, `sm`) that the
functions of the very same file read and write, and
`extruder_set_pressure_advance` declares a scalar `pressure_advance`
argument while its body copies a parameter block `params`.  The embedding
includes every field the translated functions touch and follows the
function bodies.
-/

/-- A 3-vector, as `struct coord` of trapq.h (fields x, y, z). -/
structure Coord where
  x : ℚ
  y : ℚ
  z : ℚ
deriving DecidableEq

/-- The C code accesses `struct coord` both by field name and through the
`axis[3]` array view; `axis i` is that array view. -/
def Coord.axis (c : Coord) : Fin 3 → ℚ
  | 0 => c.x
  | 1 => c.y
  | 2 => c.z

/-- A trapezoidal move segment, as the fields of `struct move` (trapq.h)
that `kin_extruder.c` reads: start position, per-axis direction ratios,
start velocity, half acceleration and duration. -/
structure Move where
  start_pos : Coord
  axes_r : Coord
  start_v : ℚ
  half_accel : ℚ
  move_t : ℚ
deriving DecidableEq

/-- Modelled from the spec: `move_get_distance` (trapq.c, not under src/).
"given a move and an in-segment time, return instantaneous distance
(quadratic evaluation)": the distance travelled along the move after
time `t` is `(start_v + half_accel·t)·t`. -/
def move_get_distance (m : Move) (move_time : ℚ) : ℚ :=
  (m.start_v + m.half_accel * move_time) * move_time

/-- Modelled from the spec: `extruder_integrate` (integrate.c, not under
src/).  The closed-form definite integral of the piecewise-quadratic
position `base + start_v·t + half_accel·t²` over `[start, end]`
("computed as a closed-form antiderivative evaluated at each segment
boundary"). -/
def extruder_integrate (base start_v half_accel start ending : ℚ) : ℚ :=
  let half_v := start_v / 2
  let sixth_a := half_accel / 3
  let si := start * (base + start * (half_v + start * sixth_a))
  let ei := ending * (base + ending * (half_v + ending * sixth_a))
  ei - si

/-- Modelled from the spec: `extruder_integrate_time` (integrate.c, not
under src/).  The closed-form definite integral of
`t·(base + start_v·t + half_accel·t²)` over `[start, end]`. -/
def extruder_integrate_time (base start_v half_accel start ending : ℚ) : ℚ :=
  let half_b := base / 2
  let third_v := start_v / 3
  let quarter_a := half_accel / 4
  let si := start * start * (half_b + start * (third_v + start * quarter_a))
  let ei := ending * ending * (half_b + ending * (third_v + ending * quarter_a))
  ei - si

/-- The body of `pa_move_integrate` after the pressure-advance gate
(kin_extruder.c lines 46-54): evaluate base position and velocity with
the given (already gated) pressure advance and return the weighted
definite integral. -/
def pa_move_integrate_body (m : Move) (axis : Fin 3)
    (pressure_advance base start ending time_offset : ℚ) : ℚ :=
  let axis_r := m.axes_r.axis axis
  let start_v := m.start_v * axis_r
  let ha := m.half_accel * axis_r
  let base := base + pressure_advance * start_v
  let start_v := start_v + pressure_advance * 2 * ha
  let iext := extruder_integrate base start_v ha start ending
  let wgt_ext := extruder_integrate_time base start_v ha start ending
  wgt_ext - time_offset * iext

/-- `can_pressure_advance` (kin_extruder.c line 43): pressure advance is
applied only when the move's X or Y direction ratio is strictly
positive. -/
def can_pressure_advance (m : Move) : Prop :=
  0 < m.axes_r.x ∨ 0 < m.axes_r.y

instance (m : Move) : Decidable (can_pressure_advance m) := by
  unfold can_pressure_advance; infer_instance

/-- `pa_move_integrate` (kin_extruder.c lines 38-55): zero the pressure
advance unless `can_pressure_advance`, then integrate. -/
def pa_move_integrate (m : Move) (axis : Fin 3)
    (pressure_advance base start ending time_offset : ℚ) : ℚ :=
  pa_move_integrate_body m axis
    (if can_pressure_advance m then pressure_advance else 0)
    base start ending time_offset

/-- `struct pressure_advance_params` (kin_extruder.c lines 117-127),
polymorphic in the scalar type so the same shape serves the rational
state embedding and the real-valued model functions.  The C struct is a
union: the linear model's single coefficient `pressure_advance` occupies
the same slot as `linear_advance`; the accessor below realises that
aliasing. -/
structure PAParams (α : Type) where
  linear_advance : α
  linear_offset : α
  linearization_velocity : α
deriving DecidableEq

/-- Union aliasing of `struct pressure_advance_params`: `pressure_advance`
and `linear_advance` are the same double. -/
def PAParams.pressure_advance {α : Type} (p : PAParams α) : α :=
  p.linear_advance

/-- One entry of `struct shaper_pulses` (kin_shaper.h): a time offset `t`
and an amplitude `a`. -/
structure ShaperPulse where
  t : ℚ
  a : ℚ
deriving DecidableEq

/-- `struct smoother` (integrate.h): polynomial kernel coefficients, the
half-window duration `hst` and the time offset `t_offs`.  The field list
is modelled from the spec ("polynomial kernel coefficients + half-window
duration + time offset"), since integrate.h is not under src/. -/
structure Smoother where
  coeffs : List ℚ
  hst : ℚ
  t_offs : ℚ
deriving DecidableEq

/-- The fields of `struct stepper_kinematics` (itersolve.h) that
`kin_extruder.c` writes: the generation window bounds. -/
structure StepperKinematics where
  gen_steps_pre_active : ℚ
  gen_steps_post_active : ℚ
deriving DecidableEq

/-- `struct extruder_stepper` (kin_extruder.c lines 132-136), extended
with the fields the functions of the same file access (`pa_params` in
`extruder_set_pressure_advance`, `sp` in `extruder_set_shaper_params`,
`sm` in `extruder_set_smoothing_params`): the printed struct declaration
belongs to an older revision than the printed function bodies. -/
structure ExtruderStepper where
  sk : StepperKinematics
  pressure_advance : ℚ
  time_offset : ℚ
  half_smooth_time : ℚ
  inv_half_smooth_time2 : ℚ
  pa_params : PAParams ℚ
  sp : List ShaperPulse × List ShaperPulse
  sm : Smoother × Smoother × Smoother
deriving DecidableEq

/-- `es->sp[i]` for i = 0 ('x') or 1 ('y'). -/
def ExtruderStepper.getSp (es : ExtruderStepper) : Fin 2 → List ShaperPulse
  | 0 => es.sp.1
  | 1 => es.sp.2

/-- Write `es->sp[i]`. -/
def ExtruderStepper.setSp (es : ExtruderStepper) (i : Fin 2)
    (v : List ShaperPulse) : ExtruderStepper :=
  match i with
  | 0 => { es with sp := (v, es.sp.2) }
  | 1 => { es with sp := (es.sp.1, v) }

/-- `es->sm[i]` for i = 0 ('x'), 1 ('y') or 2 ('z'). -/
def ExtruderStepper.getSm (es : ExtruderStepper) : Fin 3 → Smoother
  | 0 => es.sm.1
  | 1 => es.sm.2.1
  | 2 => es.sm.2.2

/-- Write `es->sm[i]`. -/
def ExtruderStepper.setSm (es : ExtruderStepper) (i : Fin 3)
    (v : Smoother) : ExtruderStepper :=
  match i with
  | 0 => { es with sm := (v, es.sm.2.1, es.sm.2.2) }
  | 1 => { es with sm := (es.sm.1, v, es.sm.2.2) }
  | 2 => { es with sm := (es.sm.1, es.sm.2.1, v) }

/-- `extruder_note_generation_time` (kin_extruder.c lines 200-210):
recompute the generation window from the current smoothing half-time
and time offset, clamping each bound at zero. -/
def extruder_note_generation_time (es : ExtruderStepper) : ExtruderStepper :=
  let pre_active := es.half_smooth_time + es.time_offset
  let pre_active := if pre_active < 0 then 0 else pre_active
  let post_active := es.half_smooth_time - es.time_offset
  let post_active := if post_active < 0 then 0 else post_active
  { es with sk := ⟨pre_active, post_active⟩ }

/-- `extruder_set_pressure_advance` (kin_extruder.c lines 212-225,
following the printed body, which copies a parameter block): set the
smoothing half-time and time offset, recompute the generation window,
and copy the supplied parameters only when the half-time is nonzero. -/
def extruder_set_pressure_advance (es : ExtruderStepper)
    (params : PAParams ℚ) (smooth_time time_offset : ℚ) : ExtruderStepper :=
  let hst := smooth_time * (1 / 2)
  let es := { es with half_smooth_time := hst, time_offset := time_offset }
  let es := extruder_note_generation_time es
  if hst = 0 then es else { es with pa_params := params }

/-- Insert a pulse into an offset-sorted pulse list. -/
def insertPulse (p : ShaperPulse) : List ShaperPulse → List ShaperPulse
  | [] => [p]
  | q :: rest => if p.t ≤ q.t then p :: q :: rest else q :: insertPulse p rest

/-- Sort a pulse list by time offset (insertion sort). -/
def sortPulses : List ShaperPulse → List ShaperPulse
  | [] => []
  | p :: rest => insertPulse p (sortPulses rest)

/-- Modelled from the spec: `init_shaper` (kin_shaper.c, not under src/).
"ordered set of (time_offset, amplitude) pairs, sorted by offset,
amplitudes summing to exactly 1"; malformed coefficient lists are
rejected with an error status and the previous pulses are kept.
Amplitudes are renormalized to sum exactly 1, which requires a nonzero
amplitude sum. -/
def init_shaper (n : ℕ) (a t : List ℚ) (old : List ShaperPulse) :
    Int × List ShaperPulse :=
  if a.length ≠ n ∨ t.length ≠ n ∨ a.sum = 0 then (-1, old)
  else
    let s := a.sum
    (0, sortPulses ((t.zip a).map (fun p => ⟨p.1, p.2 / s⟩)))

/-- Modelled from the spec: `init_smoother` (integrate.c, not under
src/).  "polynomial kernel coefficients + half-window duration";
negative windows and malformed coefficient lists are rejected with an
error status, keeping the previous smoother.  The time offset field is
not touched here (the caller assigns it separately). -/
def init_smoother (n : ℕ) (a : List ℚ) (t_sm : ℚ) (old : Smoother) :
    Int × Smoother :=
  if a.length ≠ n ∨ t_sm < 0 then (-1, old)
  else (0, ⟨a, t_sm / 2, old.t_offs⟩)

/-- `extruder_set_shaper_params` (kin_extruder.c lines 236-247): reject
any axis selector other than 'x' or 'y' with status -1 before touching
the state; otherwise install the shaper pulses for that axis and
recompute the generation window. -/
def extruder_set_shaper_params (es : ExtruderStepper) (axis : Char)
    (n : ℕ) (a t : List ℚ) : Int × ExtruderStepper :=
  if axis ≠ 'x' ∧ axis ≠ 'y' then (-1, es)
  else
    let idx : Fin 2 := if axis = 'x' then 0 else 1
    let r := init_shaper n a t (es.getSp idx)
    let es := es.setSp idx r.2
    let es := extruder_note_generation_time es
    (r.1, es)

/-- `extruder_set_smoothing_params` (kin_extruder.c lines 249-261):
reject any axis selector other than 'x', 'y' or 'z' with status -1
before touching the state; otherwise install the smoother for that
axis, assign its time offset (the C code stores `t_offs` regardless of
the init status) and recompute the generation window. -/
def extruder_set_smoothing_params (es : ExtruderStepper) (axis : Char)
    (n : ℕ) (a : List ℚ) (t_sm t_offs : ℚ) : Int × ExtruderStepper :=
  if axis ≠ 'x' ∧ axis ≠ 'y' ∧ axis ≠ 'z' then (-1, es)
  else
    let idx : Fin 3 := if axis = 'x' then 0 else if axis = 'y' then 1 else 2
    let r := init_smoother n a t_sm (es.getSm idx)
    let sm := { r.2 with t_offs := t_offs }
    let es := es.setSm idx sm
    let es := extruder_note_generation_time es
    (r.1, es)

/-- `extruder_get_step_gen_window` (kin_extruder.c lines 263-269): the
larger of the two generation window bounds. -/
def extruder_get_step_gen_window (es : ExtruderStepper) : ℚ :=
  if es.sk.gen_steps_post_active < es.sk.gen_steps_pre_active
  then es.sk.gen_steps_pre_active else es.sk.gen_steps_post_active

/-- `extruder_stepper_alloc` (kin_extruder.c lines 271-279): the freshly
allocated stepper state is zeroed (`memset(es, 0, sizeof(*es))`). -/
def extruder_stepper_alloc : ExtruderStepper :=
  ⟨⟨0, 0⟩, 0, 0, 0, 0, ⟨0, 0, 0⟩, ([], []), (⟨[], 0, 0⟩, ⟨[], 0, 0⟩, ⟨[], 0, 0⟩)⟩

/-- The backward move-queue traversal loop at the top of
`extruder_calc_position` (kin_extruder.c lines 175-178): while the
query time is negative, step to the previous move and add its duration.
The intrusive doubly-linked move list is modelled as a `List` addressed
by index; walking off the front of the retained queue is the fatal
out-of-window condition of the spec and yields `none`.  The explicit
fuel makes the (in C, potentially diverging) loop total; `i + 1` units
are always sufficient since every iteration decrements the index. -/
def walkPrev : ℕ → List Move → ℕ → ℚ → Option (ℕ × ℚ)
  | 0, _, _, _ => none
  | fuel + 1, q, i, move_time =>
    if move_time < 0 then
      match i with
      | 0 => none
      | j + 1 =>
        match q.get? j with
        | none => none
        | some p => walkPrev fuel q j (move_time + p.move_t)
    else some (i, move_time)

/-- The forward move-queue traversal loop at the top of
`extruder_calc_position` (kin_extruder.c lines 179-182): while the
query time is at or past the current move's duration, subtract that
duration and step to the next move.  Walking off the back of the
retained queue yields `none`; `q.length + 1` units of fuel are always
sufficient since every iteration increments the index. -/
def walkNext : ℕ → List Move → ℕ → ℚ → Option (ℕ × ℚ)
  | 0, _, _, _ => none
  | fuel + 1, q, i, move_time =>
    match q.get? i with
    | none => none
    | some m =>
      if m.move_t ≤ move_time then walkNext fuel q (i + 1) (move_time - m.move_t)
      else some (i, move_time)

/-- Both traversal loops in sequence, as they run on kin_extruder.c
lines 175-182: resolve an offset-adjusted query time to the move that
contains it and the local time within that move. -/
def wrapMoveTime (q : List Move) (i : ℕ) (move_time : ℚ) :
    Option (ℕ × ℚ) :=
  match walkPrev (i + 1) q i move_time with
  | none => none
  | some r => walkNext (q.length + 1) q r.1 r.2

/-- `extruder_calc_position` (kin_extruder.c lines 169-198),
parameterized by the multi-segment integrator `pari` standing for
`pa_range_integrate` (whose printed body mixes two incompatible
revisions of the function; every theorem below quantifies over `pari`
or avoids the smoothing branch).  `pari` receives the resolved move,
the axis, the wrapped move time, the configured pressure advance and
the smoothing half-time, exactly as at the call on lines 191-192.  The
query addresses move `i` of the queue `q` at `move_time`. -/
def extruder_calc_position
    (pari : Move → Fin 3 → ℚ → ℚ → ℚ → ℚ) (es : ExtruderStepper)
    (q : List Move) (i : ℕ) (move_time : ℚ) : Option ℚ :=
  match wrapMoveTime q i (move_time + es.time_offset) with
  | none => none
  | some r =>
    match q.get? r.1 with
    | none => none
    | some m =>
      let t := r.2
      let hst := es.half_smooth_time
      let move_dist := move_get_distance m t
      let e_axis : Fin 3 → ℚ := fun k =>
        (if hst = 0 then m.axes_r.axis k * move_dist
         else pari m k t es.pressure_advance hst * es.inv_half_smooth_time2)
          + m.start_pos.axis k
      some (e_axis 0 + e_axis 1 + e_axis 2)

/-- `shaper_pa_range_integrate` (kin_extruder.c lines 99-115),
parameterized by the raw range integrator `pari` standing for the
two-output revision of `pa_range_integrate` called on lines 110-111
(its printed body belongs to a different revision; every theorem below
quantifies over `pari`).  For each shaper pulse the raw position and
pressure-advance velocity integrals are evaluated at the pulse-shifted
time and accumulated weighted by the pulse amplitude. -/
def shaper_pa_range_integrate
    (pari : Move → Fin 3 → ℚ → Smoother → ℚ × ℚ) (m : Move) (axis : Fin 3)
    (move_time : ℚ) (sp : List ShaperPulse) (sm : Smoother) : ℚ × ℚ :=
  sp.foldl
    (fun acc p =>
      let r := pari m axis (move_time + p.t) sm
      (acc.1 + p.a * r.1, acc.2 + p.a * r.2))
    (0, 0)

/-- `pressure_advance_linear_model_func` (kin_extruder.c lines 138-143):
the position plus the smoothed velocity times the (single, aliased)
pressure-advance coefficient. -/
noncomputable def pressure_advance_linear_model_func
    (position pa_velocity : ℝ) (pa_params : PAParams ℝ) : ℝ :=
  position + pa_velocity * pa_params.pressure_advance

/-- `pressure_advance_tanh_model_func` (kin_extruder.c lines 145-155):
add the linear term, then, when `linear_offset` is nonzero, the
tanh-saturating term. -/
noncomputable def pressure_advance_tanh_model_func
    (position pa_velocity : ℝ) (pa_params : PAParams ℝ) : ℝ :=
  let position := position + pa_params.linear_advance * pa_velocity
  if pa_params.linear_offset = 0 then position
  else
    let rel_velocity := pa_velocity / pa_params.linearization_velocity
    position + pa_params.linear_offset * Real.tanh rel_velocity

/-- The denominator of the division on kin_extruder.c line 164:
`1. + rel_velocity` with `rel_velocity = pa_velocity /
linearization_velocity`. -/
noncomputable def reciprDenominator (pa_velocity : ℝ)
    (pa_params : PAParams ℝ) : ℝ :=
  1 + pa_velocity / pa_params.linearization_velocity

/-- `pressure_advance_recipr_model_func` (kin_extruder.c lines 157-167):
add the linear term, then, when `linear_offset` is nonzero, the
reciprocal-saturating term. -/
noncomputable def pressure_advance_recipr_model_func
    (position pa_velocity : ℝ) (pa_params : PAParams ℝ) : ℝ :=
  let position := position + pa_params.linear_advance * pa_velocity
  if pa_params.linear_offset = 0 then position
  else
    position + pa_params.linear_offset *
      (1 - 1 / reciprDenominator pa_velocity pa_params)

/-- Claim C6: for every position `p`, velocity `v` and parameter set, the
linear pressure-advance model function returns exactly
`p + pressure_advance · v`. -/
theorem c6_linear_model (p v : ℝ) (prm : PAParams ℝ) :
    pressure_advance_linear_model_func p v prm =
      p + prm.pressure_advance * v := by
  unfold pressure_advance_linear_model_func
  ring

/-- Claim C7: for every position `p`, velocity `v` and parameter set with
`linear_offset ≠ 0`, the tanh-saturating model function returns exactly
`p + linear_advance·v + linear_offset·tanh(v/linearization_velocity)`. -/
theorem c7_tanh_model (p v : ℝ) (prm : PAParams ℝ)
    (h : prm.linear_offset ≠ 0) :
    pressure_advance_tanh_model_func p v prm =
      p + prm.linear_advance * v +
        prm.linear_offset * Real.tanh (v / prm.linearization_velocity) := by
  unfold pressure_advance_tanh_model_func
  simp [h]

/-- Witness for C7 at a concrete parameter set with nonzero
`linear_offset`. -/
theorem c7_tanh_model_witness :
    pressure_advance_tanh_model_func 0 0 ⟨0, 1, 1⟩ =
      0 + (0 : ℝ) * 0 + 1 * Real.tanh (0 / 1) :=
  c7_tanh_model 0 0 ⟨0, 1, 1⟩ one_ne_zero

/-- Claim C8: with `linear_offset = 0` and any fixed `linear_advance`,
the tanh-saturating and reciprocal-saturating model functions return
exactly the same value as the linear model with `pressure_advance =
linear_advance` (which is the same union slot), for every position and
velocity. -/
theorem c8_saturating_models_linear_limit (p v : ℝ) (prm : PAParams ℝ)
    (h : prm.linear_offset = 0) :
    pressure_advance_tanh_model_func p v prm =
        pressure_advance_linear_model_func p v prm ∧
      pressure_advance_recipr_model_func p v prm =
        pressure_advance_linear_model_func p v prm := by
  unfold pressure_advance_tanh_model_func pressure_advance_recipr_model_func
    pressure_advance_linear_model_func PAParams.pressure_advance
  simp [h]
  ring

/-- Witness for C8 at a concrete parameter set with `linear_offset = 0`
and `linear_advance = 3`. -/
theorem c8_saturating_models_linear_limit_witness :
    pressure_advance_tanh_model_func 1 2 ⟨3, 0, 1⟩ =
        pressure_advance_linear_model_func 1 2 ⟨3, 0, 1⟩ ∧
      pressure_advance_recipr_model_func 1 2 ⟨3, 0, 1⟩ =
        pressure_advance_linear_model_func 1 2 ⟨3, 0, 1⟩ :=
  c8_saturating_models_linear_limit 1 2 ⟨3, 0, 1⟩ rfl

/-- Counterexample to claim C3: the code performs no clamping of the
ratio `velocity/linearization_velocity`; with `linearization_velocity =
1 ≠ 0` (as configuration-time validation guarantees) and `pa_velocity =
-1`, the denominator `1 + rel_velocity` of the division in
`pressure_advance_recipr_model_func` is exactly zero. -/
theorem c3_counterexample :
    (⟨0, 1, 1⟩ : PAParams ℝ).linearization_velocity ≠ 0 ∧
      reciprDenominator (-1) ⟨0, 1, 1⟩ = 0 := by
  constructor
  · exact one_ne_zero
  · norm_num [reciprDenominator]

/-- Claim C3 (amended): the reciprocal-saturating model performs no
clamping; the denominator `1 + velocity/linearization_velocity` in
`pressure_advance_recipr_model_func` is zero exactly when the velocity
equals `-linearization_velocity`, and for every velocity different from
that value (with `linearization_velocity ≠ 0`) the division is not a
division by zero. -/
theorem c3_recipr_denominator_nonzero (v : ℝ) (prm : PAParams ℝ)
    (hlv : prm.linearization_velocity ≠ 0)
    (hv : v ≠ -prm.linearization_velocity) :
    reciprDenominator v prm ≠ 0 := by
  unfold reciprDenominator
  intro h
  apply hv
  field_simp at h
  linarith

/-- Witness for the amended C3 at `v = 1`,
`linearization_velocity = 1`. -/
theorem c3_recipr_denominator_nonzero_witness :
    reciprDenominator 1 ⟨0, 1, 1⟩ ≠ 0 :=
  c3_recipr_denominator_nonzero 1 ⟨0, 1, 1⟩ one_ne_zero (by norm_num)

/-- A move whose only nonzero toolhead direction ratio is a negative X
component: its XY direction is nonzero, yet `can_pressure_advance` is
false because the gate tests for strictly positive components. -/
def mNegX : Move := ⟨⟨0, 0, 0⟩, ⟨-1, 0, 0⟩, 1, 0, 1⟩

/-- Counterexample to claim C2: the gate in `pa_move_integrate` is
`axes_r.x > 0 || axes_r.y > 0`, not "nonzero XY component".  The move
`mNegX` has a nonzero X direction ratio (-1), yet its integral with
configured pressure advance 1 differs from the ungated integral with
pressure advance 1 (the gate forced the pressure advance to zero), so a
move with a nonzero XY component does not keep its configured pressure
advance. -/
theorem c2_counterexample :
    mNegX.axes_r.x ≠ 0 ∧
      pa_move_integrate mNegX 0 1 0 0 1 0 ≠
        pa_move_integrate_body mNegX 0 1 0 0 1 0 := by
  constructor
  · norm_num [mNegX]
  · norm_num [mNegX, pa_move_integrate, pa_move_integrate_body,
      can_pressure_advance, extruder_integrate, extruder_integrate_time,
      Coord.axis]

/-- Claim C2 (amended): the pressure-advance contribution of
`pa_move_integrate` is computed as if `pressure_advance` were 0 unless
the concurrent toolhead move has a strictly positive X or Y direction
component (`can_pressure_advance`); when it does, the configured
pressure advance is kept (the integral equals the ungated body at the
configured value).  Pure retraction/prime moves have no positive XY
component and therefore get zero pressure advance. -/
theorem c2_pa_gate (m : Move) (axis : Fin 3)
    (pa base start ending t_off : ℚ) :
    (¬ can_pressure_advance m →
      pa_move_integrate m axis pa base start ending t_off =
        pa_move_integrate_body m axis 0 base start ending t_off) ∧
    (can_pressure_advance m →
      pa_move_integrate m axis pa base start ending t_off =
        pa_move_integrate_body m axis pa base start ending t_off) := by
  unfold pa_move_integrate
  constructor <;> intro h <;> simp [h]

/-- Witness for the amended C2: a pure-retraction-direction move
(negative X ratio) integrates as with zero pressure advance, and a
positive-X move keeps its configured pressure advance 5. -/
theorem c2_pa_gate_witness :
    pa_move_integrate mNegX 0 5 0 0 1 0 =
        pa_move_integrate_body mNegX 0 0 0 0 1 0 ∧
      pa_move_integrate ⟨⟨0, 0, 0⟩, ⟨1, 0, 0⟩, 1, 0, 1⟩ 0 5 0 0 1 0 =
        pa_move_integrate_body ⟨⟨0, 0, 0⟩, ⟨1, 0, 0⟩, 1, 0, 1⟩ 0 5 0 0 1 0 :=
  ⟨(c2_pa_gate mNegX 0 5 0 0 1 0).1
      (by norm_num [can_pressure_advance, mNegX]),
    (c2_pa_gate ⟨⟨0, 0, 0⟩, ⟨1, 0, 0⟩, 1, 0, 1⟩ 0 5 0 0 1 0).2
      (by norm_num [can_pressure_advance])⟩

/-- Auxiliary fold identity for `shaper_pa_range_integrate`: the
accumulating loop computes the amplitude-weighted sums of the per-pulse
raw integrals. -/
theorem shaper_foldl_eq (pari : Move → Fin 3 → ℚ → Smoother → ℚ × ℚ)
    (m : Move) (axis : Fin 3) (move_time : ℚ) (sm : Smoother) :
    ∀ (sp : List ShaperPulse) (acc : ℚ × ℚ),
      sp.foldl
          (fun acc p =>
            let r := pari m axis (move_time + p.t) sm
            (acc.1 + p.a * r.1, acc.2 + p.a * r.2))
          acc =
        (acc.1 +
            (sp.map
              (fun p => p.a * (pari m axis (move_time + p.t) sm).1)).sum,
          acc.2 +
            (sp.map
              (fun p => p.a * (pari m axis (move_time + p.t) sm).2)).sum)
  | [], acc => by simp
  | p :: rest, acc => by
    simp only [List.foldl_cons, List.map_cons, List.sum_cons]
    rw [shaper_foldl_eq pari m axis move_time sm rest]
    simp [add_assoc]

/-- Claim C5: shaped evaluation is the pulse-weighted superposition of
raw evaluations: for every raw range integrator, move, axis, query time
and pulse set, the position and pressure-advance velocity integrals
returned by `shaper_pa_range_integrate` are `Σ aᵢ · raw(t + tᵢ)`
componentwise. -/
theorem c5_shaper_superposition
    (pari : Move → Fin 3 → ℚ → Smoother → ℚ × ℚ) (m : Move) (axis : Fin 3)
    (move_time : ℚ) (sp : List ShaperPulse) (sm : Smoother) :
    shaper_pa_range_integrate pari m axis move_time sp sm =
      ((sp.map
          (fun p => p.a * (pari m axis (move_time + p.t) sm).1)).sum,
        (sp.map
          (fun p => p.a * (pari m axis (move_time + p.t) sm).2)).sum) := by
  unfold shaper_pa_range_integrate
  rw [shaper_foldl_eq]
  simp

/-- Claim C9: an invalid axis selector is rejected with status -1:
`extruder_set_shaper_params` rejects every axis other than 'x' or 'y',
`extruder_set_smoothing_params` rejects every axis other than 'x', 'y'
or 'z', and in both rejection cases the whole extruder stepper state
(shaper pulses, smoothers, generation window and all other fields) is
returned unchanged. -/
theorem c9_axis_validation (es : ExtruderStepper) (axis : Char) (n : ℕ)
    (a t : List ℚ) (t_sm t_offs : ℚ) :
    (axis ≠ 'x' → axis ≠ 'y' →
      extruder_set_shaper_params es axis n a t = (-1, es)) ∧
    (axis ≠ 'x' → axis ≠ 'y' → axis ≠ 'z' →
      extruder_set_smoothing_params es axis n a t_sm t_offs = (-1, es)) := by
  constructor
  · intro h1 h2
    simp [extruder_set_shaper_params, h1, h2]
  · intro h1 h2 h3
    simp [extruder_set_smoothing_params, h1, h2, h3]

/-- Witness for C9 at the invalid axis selector 'a' and the freshly
allocated state. -/
theorem c9_axis_validation_witness :
    extruder_set_shaper_params extruder_stepper_alloc 'a' 0 [] [] =
        (-1, extruder_stepper_alloc) ∧
      extruder_set_smoothing_params extruder_stepper_alloc 'a' 0 [] 0 0 =
        (-1, extruder_stepper_alloc) :=
  ⟨(c9_axis_validation extruder_stepper_alloc 'a' 0 [] [] 0 0).1
      (by decide) (by decide),
    (c9_axis_validation extruder_stepper_alloc 'a' 0 [] [] 0 0).2
      (by decide) (by decide) (by decide)⟩

/-- Zero-clamping equals `max 0`. -/
theorem clamp_eq_max (x : ℚ) : (if x < 0 then 0 else x) = max 0 x := by
  rcases lt_or_le x 0 with h | h
  · rw [if_pos h, max_eq_left h.le]
  · rw [if_neg (not_lt.2 h), max_eq_right h]

/-- Claim C10: calling `extruder_set_pressure_advance` with
`smooth_time = 0` updates `half_smooth_time` (to 0), `time_offset` and
the generation window, and changes nothing else: in particular the
previously stored pressure-advance parameter block is kept, not
overwritten with the supplied one. -/
theorem c10_zero_smooth_time_frame (es : ExtruderStepper)
    (params : PAParams ℚ) (t_off : ℚ) :
    extruder_set_pressure_advance es params 0 t_off =
      { es with half_smooth_time := 0, time_offset := t_off,
                sk := ⟨max 0 t_off, max 0 (-t_off)⟩ } := by
  unfold extruder_set_pressure_advance extruder_note_generation_time
  simp [clamp_eq_max]
  rcases lt_or_le 0 t_off with h | h
  · rw [if_pos h, max_eq_left (by linarith)]
  · rw [if_neg (not_lt.2 h), max_eq_right (by linarith)]

/-- The combination of the two zero-clamped window bounds computed by
`extruder_note_generation_time`, maximized as in
`extruder_get_step_gen_window`, equals `max 0 (h + |τ|)`. -/
theorem window_clamp_eq (h τ : ℚ) :
    (if (if h - τ < 0 then 0 else h - τ) < (if h + τ < 0 then 0 else h + τ)
      then if h + τ < 0 then 0 else h + τ
      else if h - τ < 0 then 0 else h - τ) = max 0 (h + |τ|) := by
  rcases abs_cases τ with ⟨ha, hs⟩ | ⟨ha, hs⟩ <;> rw [ha, max_def] <;>
    split_ifs <;> linarith

/-- The generation window actually maintained by the code: the larger
window bound equals the smoothing half-time plus the absolute time
offset, clamped at zero.  This is what
`extruder_note_generation_time` establishes; it involves neither the
shaper pulse offsets nor the per-axis smoother half-windows. -/
def generation_window_consistent (es : ExtruderStepper) : Prop :=
  extruder_get_step_gen_window es =
    max 0 (es.half_smooth_time + |es.time_offset|)

/-- `extruder_note_generation_time` always establishes the window
consistency property. -/
theorem note_generation_window_consistent (es : ExtruderStepper) :
    generation_window_consistent (extruder_note_generation_time es) := by
  unfold generation_window_consistent extruder_get_step_gen_window
    extruder_note_generation_time
  exact window_clamp_eq es.half_smooth_time es.time_offset

/-- Claim C4 (amended): every parameter-change operation recomputes the
generation window before returning, and the recomputed window satisfies
`max(pre_active, post_active) = max 0 (half_smooth_time +
|time_offset|)` — i.e. the window reflects exactly the smoothing
half-time and time offset; the shaper pulse offsets and the per-axis
smoother half-windows installed by `extruder_set_shaper_params` and
`extruder_set_smoothing_params` are not included in it. -/
theorem c4_window_recompute (es : ExtruderStepper) (params : PAParams ℚ)
    (st t_off : ℚ) (axis : Char) (n : ℕ) (a t : List ℚ)
    (t_sm t_offs : ℚ) :
    generation_window_consistent
        (extruder_set_pressure_advance es params st t_off) ∧
      (axis = 'x' ∨ axis = 'y' →
        generation_window_consistent
          (extruder_set_shaper_params es axis n a t).2) ∧
      (axis = 'x' ∨ axis = 'y' ∨ axis = 'z' →
        generation_window_consistent
          (extruder_set_smoothing_params es axis n a t_sm t_offs).2) := by
  refine ⟨?_, ?_, ?_⟩
  · simp only [extruder_set_pressure_advance]
    split_ifs
    · exact note_generation_window_consistent _
    · exact note_generation_window_consistent _
  · rintro (rfl | rfl) <;>
      simp only [extruder_set_shaper_params] <;>
      norm_num <;>
      exact note_generation_window_consistent _
  · rintro (rfl | rfl | rfl) <;>
      simp only [extruder_set_smoothing_params] <;>
      norm_num <;>
      exact note_generation_window_consistent _

/-- Witness for the amended C4 at concrete inputs (axis 'x' in both
axis-taking operations). -/
theorem c4_window_recompute_witness :
    generation_window_consistent
        (extruder_set_pressure_advance extruder_stepper_alloc ⟨0, 0, 0⟩ 0 0) ∧
      generation_window_consistent
        (extruder_set_shaper_params extruder_stepper_alloc 'x' 1 [1] [1]).2 ∧
      generation_window_consistent
        (extruder_set_smoothing_params extruder_stepper_alloc 'x' 0 [] 0 0).2 :=
  ⟨(c4_window_recompute extruder_stepper_alloc ⟨0, 0, 0⟩ 0 0 'x' 1 [1] [1]
        0 0).1,
    (c4_window_recompute extruder_stepper_alloc ⟨0, 0, 0⟩ 0 0 'x' 1 [1] [1]
        0 0).2.1 (Or.inl rfl),
    (c4_window_recompute extruder_stepper_alloc ⟨0, 0, 0⟩ 0 0 'x' 0 [] []
        0 0).2.2 (Or.inl rfl)⟩

/-- Following the claim's words: the largest absolute shaper pulse
offset over both shaped axes of the extruder state. -/
def shaperMaxAbsOffset (es : ExtruderStepper) : ℚ :=
  ((es.sp.1 ++ es.sp.2).map (fun p => |p.t|)).foldr max 0

/-- Following the claim's words: the largest smoother half-window over
the three smoothed axes of the extruder state. -/
def smootherMaxHalfWindow (es : ExtruderStepper) : ℚ :=
  max (max es.sm.1.hst es.sm.2.1.hst) es.sm.2.2.hst

/-- Following the claim's words: the lower bound
`max(|shaper offsets|, smoother half-window) + |time offset|` that the
claim asserts for the generation window. -/
def claimedWindowBound (es : ExtruderStepper) : ℚ :=
  max (shaperMaxAbsOffset es) (smootherMaxHalfWindow es) +
    |es.time_offset|

/-- Counterexample to claim C4: installing a shaper pulse at offset 1 on
a freshly allocated stepper leaves the recomputed generation window at
0 (the window computation reads only the smoothing half-time and time
offset), strictly below the claimed bound
`max(|shaper offsets|, smoother half-window) + |time offset| = 1`. -/
theorem c4_counterexample :
    extruder_get_step_gen_window
        (extruder_set_shaper_params extruder_stepper_alloc 'x' 1 [1] [1]).2 <
      claimedWindowBound
        (extruder_set_shaper_params extruder_stepper_alloc 'x' 1 [1] [1]).2 := by
  norm_num [extruder_set_shaper_params, extruder_stepper_alloc, init_shaper,
    sortPulses, insertPulse, ExtruderStepper.getSp, ExtruderStepper.setSp,
    extruder_note_generation_time, extruder_get_step_gen_window,
    claimedWindowBound, shaperMaxAbsOffset, smootherMaxHalfWindow]

/-- A one-second unit-ratio extruder move starting at the origin with
start velocity 1 and no acceleration. -/
def mC1 : Move := ⟨⟨0, 0, 0⟩, ⟨1, 0, 0⟩, 1, 0, 1⟩

/-- An extruder stepper state with zero pressure advance and zero
smoothing but a nonzero configured time offset of 1/2. -/
def esC1 : ExtruderStepper :=
  ⟨⟨0, 0⟩, 0, 1 / 2, 0, 0, ⟨0, 0, 0⟩, ([], []),
    (⟨[], 0, 0⟩, ⟨[], 0, 0⟩, ⟨[], 0, 0⟩)⟩

/-- A trivial stand-in for the multi-segment range integrator; the
unsmoothed branch of `extruder_calc_position` never calls it. -/
def pariZero : Move → Fin 3 → ℚ → ℚ → ℚ → ℚ := fun _ _ _ _ _ => 0

/-- Counterexample to claim C1: with zero pressure advance and zero
smoothing but time offset 1/2, the query at the in-range time 0 of move
`mC1` returns the raw distance at the offset-shifted time 1/2 (namely
1/2), not the claimed raw nominal extruder distance at time 0 (namely
0). -/
theorem c1_counterexample :
    esC1.pressure_advance = 0 ∧ esC1.half_smooth_time = 0 ∧
      (0 : ℚ) ≤ 0 ∧ (0 : ℚ) < mC1.move_t ∧
      extruder_calc_position pariZero esC1 [mC1] 0 0 ≠
        some ((mC1.start_pos.x + mC1.axes_r.x * move_get_distance mC1 0) +
            (mC1.start_pos.y + mC1.axes_r.y * move_get_distance mC1 0) +
            (mC1.start_pos.z + mC1.axes_r.z * move_get_distance mC1 0)) := by
  refine ⟨rfl, rfl, le_refl 0, by norm_num [mC1], ?_⟩
  norm_num [extruder_calc_position, wrapMoveTime, walkPrev, walkNext, esC1,
    mC1, pariZero, move_get_distance, Coord.axis]

/-- Claim C1 (amended): with zero configured pressure advance, zero
smoothing half-time and zero configured time offset, the extruder
position at every in-range query time of a retained move is exactly the
raw nominal extruder distance, the sum over the three axes of
`start_pos + axes_r · move_get_distance` — for every multi-segment
integrator (the smoothing branch is not taken). -/
theorem c1_raw_when_unsmoothed (pari : Move → Fin 3 → ℚ → ℚ → ℚ → ℚ)
    (es : ExtruderStepper) (q : List Move) (i : ℕ) (m : Move) (t : ℚ)
    (_hpa : es.pressure_advance = 0) (hhst : es.half_smooth_time = 0)
    (hoff : es.time_offset = 0) (hm : q.get? i = some m)
    (h0 : 0 ≤ t) (h1 : t < m.move_t) :
    extruder_calc_position pari es q i t =
      some ((m.start_pos.x + m.axes_r.x * move_get_distance m t) +
          (m.start_pos.y + m.axes_r.y * move_get_distance m t) +
          (m.start_pos.z + m.axes_r.z * move_get_distance m t)) := by
  have hprev : walkPrev (i + 1) q i t = some (i, t) := by
    unfold walkPrev
    rw [if_neg (not_lt.2 h0)]
  have hnext : walkNext (q.length + 1) q i t = some (i, t) := by
    unfold walkNext
    rw [hm]
    simp only [if_neg (not_le.2 h1)]
  have hwrap : wrapMoveTime q i (t + es.time_offset) = some (i, t) := by
    rw [hoff, add_zero]
    unfold wrapMoveTime
    rw [hprev]
    exact hnext
  unfold extruder_calc_position
  rw [hwrap]
  simp only [hm, hhst, if_pos, Coord.axis]
  rw [Option.some.injEq]
  ring

/-- Witness for the amended C1: a single retained move queried at time
1/2 under the all-zero configuration yields the raw nominal extruder
distance. -/
theorem c1_raw_when_unsmoothed_witness :
    extruder_calc_position pariZero extruder_stepper_alloc [mC1] 0 (1 / 2) =
      some ((mC1.start_pos.x + mC1.axes_r.x * move_get_distance mC1 (1 / 2)) +
          (mC1.start_pos.y + mC1.axes_r.y * move_get_distance mC1 (1 / 2)) +
          (mC1.start_pos.z + mC1.axes_r.z * move_get_distance mC1 (1 / 2))) :=
  c1_raw_when_unsmoothed pariZero extruder_stepper_alloc [mC1] 0 mC1 (1 / 2)
    rfl rfl rfl rfl (by norm_num) (by norm_num [mC1])
